import Mathlib

/-!
Verification of the tk700-control-dashboard core against its specification.

The power-transition state machine, the HTTP route logic and the polling
per-tick polling logic are embedded shallowly from the TypeScript source
(`src/index.ts`, here `src/unnamed/part_001`, and `src/lib/poller.ts`).
Wall-clock time (`Date.now()`) is passed explicitly as an integer number of
milliseconds; JavaScript numbers that only ever hold second quantities are
modelled as rationals.
-/

namespace TK700

/-! ## Power state machine (part_001, lines 12-120) -/

/-- The five display states (`enum PowerState`). -/
inductive PowerState
  | OFF
  | WARMING_UP
  | ON
  | COOLING_DOWN
  | UNKNOWN
deriving DecidableEq, Repr

/-- `PowerStateData`: `powerOn: boolean | null`, `state`, and
`transitionStartTime: number | null` (a `Date.now()` millisecond stamp). -/
structure PowerStateData where
  powerOn : Option Bool
  state : PowerState
  transitionStartTime : Option Int
deriving DecidableEq, Repr

def WARMING_UP_TIME_SECONDS : ℚ := 30

def COOLING_DOWN_TIME_SECONDS : ℚ := 90

/-- `initialState`: `{powerOn: null, state: UNKNOWN, transitionStartTime: null}`. -/
def initialState : PowerStateData :=
  { powerOn := none, state := PowerState.UNKNOWN, transitionStartTime := none }

/-- `calculateTimeSinceTransition = startTime ? (Date.now() - startTime) / 1000 : Infinity`.
The result is in seconds; `none` encodes the JavaScript value `Infinity`. JavaScript
truthiness makes a stored stamp of `0` fall into the `Infinity` branch as
well, so `some 0` also maps to `none`. -/
def calculateTimeSinceTransition (now : Int) : Option Int → Option ℚ
  | some t => if t = 0 then none else some (((now : ℚ) - (t : ℚ)) / 1000)
  | none => none

/-- Comparison of a possibly-infinite elapsed time with a finite bound:
`Infinity < b` is false. -/
def ltElapsed : Option ℚ → ℚ → Bool
  | some e, b => decide (e < b)
  | none, _ => false

/-- `inferPowerState` (part_001, lines 42-59): hold a warming/cooling phase
that has not timed out, otherwise resolve the raw reading to `ON`/`OFF`.
The source binds `timeSinceTransition` once; it is inlined here. -/
def inferPowerState (now : Int) (current : PowerStateData) (powerOn : Bool) : PowerState :=
  if current.state = PowerState.WARMING_UP ∧
      ltElapsed (calculateTimeSinceTransition now current.transitionStartTime)
        WARMING_UP_TIME_SECONDS then
    PowerState.WARMING_UP
  else if current.state = PowerState.COOLING_DOWN ∧
      ltElapsed (calculateTimeSinceTransition now current.transitionStartTime)
        COOLING_DOWN_TIME_SECONDS then
    PowerState.COOLING_DOWN
  else if powerOn then PowerState.ON else PowerState.OFF

/-- `shouldResetTransition` (part_001, lines 61-62). -/
def shouldResetTransition (currentState newState : PowerState) : Bool :=
  newState != currentState && (newState == PowerState.ON || newState == PowerState.OFF)

/-- `updateFromProjector` (part_001, lines 64-80): the `observeReading`
transition. `O.fromNullable(powerOn)` returns `current` unchanged on `null`. -/
def updateFromProjector (now : Int) (current : PowerStateData)
    (powerOn : Option Bool) : PowerStateData :=
  match powerOn with
  | none => current
  | some b =>
    { powerOn := some b
      state := inferPowerState now current b
      transitionStartTime :=
        if shouldResetTransition current.state (inferPowerState now current b) then none
        else current.transitionStartTime }

/-- `initiateTransition` (part_001, lines 82-105): the `requestTransition`
transition; `now` stands for the `Date.now()` call in each honored branch.
The source binds `canTurnOn` / `canTurnOff`; they are inlined here. -/
def initiateTransition (now : Int) (current : PowerStateData)
    (targetOn : Bool) : PowerStateData :=
  if targetOn = true ∧ current.state = PowerState.OFF then
    { powerOn := some targetOn
      state := PowerState.WARMING_UP
      transitionStartTime := some now }
  else if targetOn = false ∧ current.state = PowerState.ON then
    { powerOn := some targetOn
      state := PowerState.COOLING_DOWN
      transitionStartTime := some now }
  else current

/-- `calculateRemainingSeconds` (part_001, lines 107-115). On the
`Infinity` branch of `calculateTimeSinceTransition` the JavaScript value is
`Math.max(0, Math.ceil(totalTime - Infinity)) = 0`. -/
def calculateRemainingSeconds (now : Int) (state : PowerStateData) : Int :=
  match state.transitionStartTime with
  | none => 0
  | some _ =>
    match calculateTimeSinceTransition now state.transitionStartTime with
    | none => 0
    | some timeSinceTransition =>
      max 0 ⌈(if state.state = PowerState.WARMING_UP then WARMING_UP_TIME_SECONDS
              else COOLING_DOWN_TIME_SECONDS) - timeSinceTransition⌉

/-- `PowerStateInfo`: the snapshot enriched with the derived countdown. -/
structure PowerStateInfo where
  powerOn : Option Bool
  state : PowerState
  transitionStartTime : Option Int
  remainingSeconds : Int
deriving DecidableEq, Repr

/-- `enrichWithRemainingSeconds` (part_001, lines 117-120). -/
def enrichWithRemainingSeconds (now : Int) (state : PowerStateData) : PowerStateInfo :=
  { powerOn := state.powerOn
    state := state.state
    transitionStartTime := state.transitionStartTime
    remainingSeconds := calculateRemainingSeconds now state }

/-! ## Reachability for the C1 invariant -/

/-- States reachable from `initialState` by the two manager entry points
(`updateFromProjectorStatus` and `initiateTransitionTo`), with arbitrary
clock values and readings. -/
inductive Reachable : PowerStateData → Prop
  | init : Reachable initialState
  | observe (now : Int) (reading : Option Bool) {s : PowerStateData} :
      Reachable s → Reachable (updateFromProjector now s reading)
  | request (now : Int) (targetOn : Bool) {s : PowerStateData} :
      Reachable s → Reachable (initiateTransition now s targetOn)

/-- The transition-phase invariant of the data model. -/
def transitionInvariant (s : PowerStateData) : Prop :=
  s.transitionStartTime.isSome = true ↔
    (s.state = PowerState.WARMING_UP ∨ s.state = PowerState.COOLING_DOWN)

lemma inferPowerState_ne_unknown (now : Int) (current : PowerStateData) (powerOn : Bool) :
    inferPowerState now current powerOn ≠ PowerState.UNKNOWN := by
  unfold inferPowerState
  split
  · simp
  · split
    · simp
    · split <;> simp

lemma inferPowerState_warming (now : Int) (current : PowerStateData) (powerOn : Bool)
    (h : inferPowerState now current powerOn = PowerState.WARMING_UP) :
    current.state = PowerState.WARMING_UP := by
  unfold inferPowerState at h
  split at h
  · next h' => exact h'.1
  · split at h
    · simp_all
    · split at h <;> simp_all

lemma inferPowerState_cooling (now : Int) (current : PowerStateData) (powerOn : Bool)
    (h : inferPowerState now current powerOn = PowerState.COOLING_DOWN) :
    current.state = PowerState.COOLING_DOWN := by
  unfold inferPowerState at h
  split at h
  · simp_all
  · split at h
    · next h' => exact h'.1
    · split at h <;> simp_all

lemma transitionInvariant_observe (now : Int) (reading : Option Bool)
    (s : PowerStateData) (hs : transitionInvariant s) :
    transitionInvariant (updateFromProjector now s reading) := by
  match reading with
  | none => exact hs
  | some b =>
    unfold transitionInvariant updateFromProjector
    simp only
    by_cases hr : shouldResetTransition s.state (inferPowerState now s b) = true
    · simp only [hr, if_pos]
      unfold shouldResetTransition at hr
      simp only [Bool.and_eq_true, Bool.or_eq_true, bne_iff_ne, beq_iff_eq] at hr
      constructor
      · intro h; simp at h
      · intro h
        rcases hr.2 with h2 | h2 <;> rw [h2] at h <;> simp at h
    · rw [if_neg hr]
      unfold shouldResetTransition at hr
      simp only [Bool.and_eq_true, Bool.or_eq_true, bne_iff_ne, beq_iff_eq,
        not_and_or, not_or, not_not] at hr
      rcases hr with h1 | h2
      · rw [h1]
        unfold transitionInvariant at hs
        exact hs
      · have hmem : inferPowerState now s b = PowerState.WARMING_UP ∨
            inferPowerState now s b = PowerState.COOLING_DOWN := by
          have := inferPowerState_ne_unknown now s b
          cases h : inferPowerState now s b <;> simp_all
        constructor
        · intro _; exact hmem
        · intro _
          unfold transitionInvariant at hs
          rcases hmem with hw | hc
          · exact hs.mpr (Or.inl (inferPowerState_warming now s b hw))
          · exact hs.mpr (Or.inr (inferPowerState_cooling now s b hc))

lemma transitionInvariant_request (now : Int) (targetOn : Bool)
    (s : PowerStateData) (hs : transitionInvariant s) :
    transitionInvariant (initiateTransition now s targetOn) := by
  unfold initiateTransition
  split
  · unfold transitionInvariant; simp
  · split
    · unfold transitionInvariant; simp
    · exact hs

lemma transitionInvariant_reachable (s : PowerStateData) (h : Reachable s) :
    transitionInvariant s := by
  induction h with
  | init => unfold transitionInvariant initialState; simp
  | observe now reading _ ih => exact transitionInvariant_observe now reading _ ih
  | request now targetOn _ ih => exact transitionInvariant_request now targetOn _ ih

/-- C1: in every state reachable from the initial state by any sequence of
`observeReading` (`updateFromProjector`) and `requestTransition`
(`initiateTransition`) applications, `transitionStartTime` is non-none if
and only if `state` is `WARMING_UP` or `COOLING_DOWN`. -/
theorem claim1_transition_time_iff_transitioning
    (s : PowerStateData) (h : Reachable s) :
    s.transitionStartTime.isSome = true ↔
      (s.state = PowerState.WARMING_UP ∨ s.state = PowerState.COOLING_DOWN) :=
  transitionInvariant_reachable s h

/-- Witness for C1 at a concrete reachable state: observe an on-reading from
the initial state, then request power-off; the resulting cooling-down state
carries a transition stamp. -/
theorem claim1_transition_time_iff_transitioning_witness :
    (initiateTransition 7000 (updateFromProjector 5000 initialState (some true))
        false).transitionStartTime.isSome = true ↔
      ((initiateTransition 7000 (updateFromProjector 5000 initialState (some true))
          false).state = PowerState.WARMING_UP ∨
        (initiateTransition 7000 (updateFromProjector 5000 initialState (some true))
          false).state = PowerState.COOLING_DOWN) :=
  claim1_transition_time_iff_transitioning _
    (Reachable.request 7000 false (Reachable.observe 5000 (some true) Reachable.init))

/-! ## C2: observeReading behaviour against the description in the spec -/

/-- The elapsed time exactly as the spec words it: time since
`transitionStartTime`, infinite (`none`) only when no stamp is set. -/
def specElapsed (now : Int) : Option Int → Option ℚ
  | some t => some (((now : ℚ) - (t : ℚ)) / 1000)
  | none => none

/-- `observeReading` as the claim states it, word for word: on a `none`
reading return `current`; otherwise hold an unexpired warming/cooling phase
(elapsed infinite iff no stamp), else resolve to `ON`/`OFF` from the
reading; clear the stamp exactly when the resolved state differs from
`current.state` and is `ON` or `OFF`; always record the observed reading. -/
def observeReadingSpec (now : Int) (current : PowerStateData)
    (reading : Option Bool) : PowerStateData :=
  match reading with
  | none => current
  | some b =>
    let resolved : PowerState :=
      if current.state = PowerState.WARMING_UP ∧
          ltElapsed (specElapsed now current.transitionStartTime) 30 then
        PowerState.WARMING_UP
      else if current.state = PowerState.COOLING_DOWN ∧
          ltElapsed (specElapsed now current.transitionStartTime) 90 then
        PowerState.COOLING_DOWN
      else if b then PowerState.ON else PowerState.OFF
    { powerOn := some b
      state := resolved
      transitionStartTime :=
        if resolved ≠ current.state ∧
            (resolved = PowerState.ON ∨ resolved = PowerState.OFF) then none
        else current.transitionStartTime }

lemma calculateTimeSinceTransition_eq_specElapsed (now : Int) (tst : Option Int)
    (h : tst ≠ some 0) :
    calculateTimeSinceTransition now tst = specElapsed now tst := by
  match tst with
  | none => rfl
  | some t =>
    have htz : t ≠ 0 := fun hz => h (by rw [hz])
    simp [calculateTimeSinceTransition, specElapsed, htz]

lemma shouldResetTransition_iff (currentState newState : PowerState) :
    shouldResetTransition currentState newState = true ↔
      (newState ≠ currentState ∧
        (newState = PowerState.ON ∨ newState = PowerState.OFF)) := by
  unfold shouldResetTransition
  simp [Bool.and_eq_true, Bool.or_eq_true, bne_iff_ne, beq_iff_eq]

/-- C2: for every snapshot whose stored stamp is a genuine `Date.now()`
value (never the literal `0`, where JavaScript truthiness would diverge from
the reading of the null check in the spec), `updateFromProjector` computes
exactly the observeReading behaviour the claim describes. -/
theorem claim2_updateFromProjector_matches_spec
    (now : Int) (current : PowerStateData) (reading : Option Bool)
    (h : current.transitionStartTime ≠ some 0) :
    updateFromProjector now current reading = observeReadingSpec now current reading := by
  match reading with
  | none => rfl
  | some b =>
    unfold updateFromProjector observeReadingSpec inferPowerState
    simp only [WARMING_UP_TIME_SECONDS, COOLING_DOWN_TIME_SECONDS,
      calculateTimeSinceTransition_eq_specElapsed now current.transitionStartTime h]
    set resolved :=
      if current.state = PowerState.WARMING_UP ∧
          ltElapsed (specElapsed now current.transitionStartTime) 30 then
        PowerState.WARMING_UP
      else if current.state = PowerState.COOLING_DOWN ∧
          ltElapsed (specElapsed now current.transitionStartTime) 90 then
        PowerState.COOLING_DOWN
      else if b then PowerState.ON else PowerState.OFF with hres
    have : shouldResetTransition current.state resolved = true ↔
        (resolved ≠ current.state ∧
          (resolved = PowerState.ON ∨ resolved = PowerState.OFF)) :=
      shouldResetTransition_iff current.state resolved
    by_cases hc : resolved ≠ current.state ∧
        (resolved = PowerState.ON ∨ resolved = PowerState.OFF)
    · rw [if_pos (this.mpr hc), if_pos hc]
    · rw [if_neg (fun hb => hc (this.mp hb)), if_neg hc]

/-- Witness for C2: a warming-up snapshot 10 s into its phase with a fresh
on-reading. -/
theorem claim2_updateFromProjector_matches_spec_witness :
    updateFromProjector 110000
        { powerOn := some true, state := PowerState.WARMING_UP,
          transitionStartTime := some 100000 } (some true) =
      observeReadingSpec 110000
        { powerOn := some true, state := PowerState.WARMING_UP,
          transitionStartTime := some 100000 } (some true) :=
  claim2_updateFromProjector_matches_spec 110000
    { powerOn := some true, state := PowerState.WARMING_UP,
      transitionStartTime := some 100000 } (some true) (by decide)

/-! ## C3: requestTransition is honored only from a stable state -/

/-- C3: turning on is honored exactly from `OFF` (yielding a warming-up
snapshot stamped `now`), turning off exactly from `ON` (yielding a
cooling-down snapshot stamped `now`); every other combination returns the
current snapshot unchanged. -/
theorem claim3_initiateTransition_cases (now : Int) (current : PowerStateData) :
    (current.state = PowerState.OFF →
      initiateTransition now current true =
        { powerOn := some true, state := PowerState.WARMING_UP,
          transitionStartTime := some now }) ∧
    (current.state = PowerState.ON →
      initiateTransition now current false =
        { powerOn := some false, state := PowerState.COOLING_DOWN,
          transitionStartTime := some now }) ∧
    (current.state ≠ PowerState.OFF → initiateTransition now current true = current) ∧
    (current.state ≠ PowerState.ON → initiateTransition now current false = current) := by
  refine ⟨fun h => ?_, fun h => ?_, fun h => ?_, fun h => ?_⟩ <;>
    unfold initiateTransition
  · rw [if_pos ⟨rfl, h⟩]
  · rw [if_neg (by simp), if_pos ⟨rfl, h⟩]
  · rw [if_neg (by simp [h]), if_neg (by simp)]
  · rw [if_neg (by simp), if_neg (by simp [h])]

/-- Witness for C3 at a concrete `OFF` snapshot and a concrete `ON`
snapshot. -/
theorem claim3_initiateTransition_cases_witness :
    initiateTransition 1234 ⟨some false, PowerState.OFF, none⟩ true =
      ⟨some true, PowerState.WARMING_UP, some 1234⟩ ∧
    initiateTransition 1234 ⟨some false, PowerState.OFF, none⟩ false =
      ⟨some false, PowerState.OFF, none⟩ :=
  ⟨(claim3_initiateTransition_cases 1234 ⟨some false, PowerState.OFF, none⟩).1 rfl,
    (claim3_initiateTransition_cases 1234
        ⟨some false, PowerState.OFF, none⟩).2.2.2 (by decide)⟩

/-! ## C4: the derived countdown -/

/-- C4: `remainingSeconds` is `0` without a transition stamp, and otherwise
`max 0 ⌈phaseDuration - elapsed⌉` with a 30 s phase for `WARMING_UP` and a
90 s phase for `COOLING_DOWN`; in particular a warming-up snapshot stamped
29 s ago has one second remaining. Stamps are genuine `Date.now()` values
(never the literal `0`). -/
theorem claim4_calculateRemainingSeconds (now : Int) (s : PowerStateData)
    (h0 : s.transitionStartTime ≠ some 0) :
    (s.transitionStartTime = none → calculateRemainingSeconds now s = 0) ∧
    (∀ t : Int, s.transitionStartTime = some t → s.state = PowerState.WARMING_UP →
      calculateRemainingSeconds now s =
        max 0 ⌈(30 : ℚ) - ((now : ℚ) - (t : ℚ)) / 1000⌉) ∧
    (∀ t : Int, s.transitionStartTime = some t → s.state = PowerState.COOLING_DOWN →
      calculateRemainingSeconds now s =
        max 0 ⌈(90 : ℚ) - ((now : ℚ) - (t : ℚ)) / 1000⌉) ∧
    (s.state = PowerState.WARMING_UP → s.transitionStartTime = some (now - 29000) →
      calculateRemainingSeconds now s = 1) := by
  have hformula : ∀ t : Int, s.transitionStartTime = some t →
      calculateRemainingSeconds now s =
        max 0 ⌈(if s.state = PowerState.WARMING_UP then (30 : ℚ) else 90) -
          ((now : ℚ) - (t : ℚ)) / 1000⌉ := by
    intro t ht
    have htz : t ≠ 0 := fun hz => h0 (by rw [ht, hz])
    simp [calculateRemainingSeconds, ht, calculateTimeSinceTransition, htz,
      WARMING_UP_TIME_SECONDS, COOLING_DOWN_TIME_SECONDS]
  refine ⟨fun h => ?_, fun t ht hw => ?_, fun t ht hc => ?_, fun hw ht => ?_⟩
  · unfold calculateRemainingSeconds
    rw [h]
  · rw [hformula t ht, if_pos hw]
  · rw [hformula t ht, if_neg (by rw [hc]; intro hx; cases hx)]
  · rw [hformula (now - 29000) ht, if_pos hw]
    rw [Int.cast_sub]
    norm_num

/-- Witness for C4: a warming-up snapshot stamped at 71000 ms read at
100000 ms, i.e. 29 s into the 30 s phase: one second remains. -/
theorem claim4_calculateRemainingSeconds_witness :
    calculateRemainingSeconds 100000
      { powerOn := some true, state := PowerState.WARMING_UP,
        transitionStartTime := some 71000 } = 1 :=
  (claim4_calculateRemainingSeconds 100000
      { powerOn := some true, state := PowerState.WARMING_UP,
        transitionStartTime := some 71000 } (by decide)).2.2.2 rfl (by decide)

/-! ## Poll and broadcast layer (src/lib/poller.ts) -/

def POLL_INTERVAL : Nat := 2000

/-- Raw outcome of one fetch call: a value, or a rejected promise. -/
inductive FetchOutcome (T : Type) where
  | ok (v : T)
  | failed (msg : String)
deriving DecidableEq, Repr

/-- `createPollingTask` (poller.ts, lines 41-48) composed with the
`E.getOrElse null` applied to it inside `createConditionalPoller$`
(line 59): `TE.tryCatch` reifies a rejection as `Left`, `TE.orElse`
recovers it to `Right null`, so one tick resolves to the fetched value on
success and to `null` on failure. -/
def createPollingTask {T : Type} : FetchOutcome T → Option T
  | .ok v => some v
  | .failed _ => none

/-- State of one conditional poller stream: the latest gating boolean and
the `shareReplay(1)` cache of the latest emitted value (`none` before any
emission and while the projector is off). -/
structure PollerState (T : Type) where
  isOn : Bool
  latest : Option T
deriving DecidableEq, Repr

/-- Events driving `createConditionalPoller$` (poller.ts, lines 50-64).
`condOff`: the gating signal emits `false`, so `switchMap` switches to
`of(null)`. `condOn r`: the signal emits `true`, so `switchMap` subscribes
`interval(POLL_INTERVAL).pipe(startWith(0))`, whose `startWith(0)` fires an
immediate first tick resolving to `r`. `tick r`: a later interval tick
resolving to `r`; the interval only runs while the signal is `true`. -/
inductive PollerEvent (T : Type) where
  | condOff
  | condOn (first : Option T)
  | tick (r : Option T)
deriving DecidableEq, Repr

/-- One emission of `createConditionalPoller$`. -/
def createConditionalPollerStep {T : Type} (s : PollerState T) :
    PollerEvent T → PollerState T
  | .condOff => { isOn := false, latest := none }
  | .condOn r => { isOn := true, latest := r }
  | .tick r => if s.isOn then { isOn := true, latest := r } else s

/-- Stream state before the gating signal has ever emitted. -/
def pollerInit {T : Type} : PollerState T := { isOn := false, latest := none }

/-- A conditional poller consuming a whole event sequence. -/
def createConditionalPollerRun {T : Type} (s : PollerState T) :
    List (PollerEvent T) → PollerState T
  | [] => s
  | e :: es => createConditionalPollerRun (createConditionalPollerStep s e) es

lemma createConditionalPollerRun_off_latest {T : Type} (s : PollerState T)
    (hs : s.isOn = false → s.latest = none) (es : List (PollerEvent T)) :
    (createConditionalPollerRun s es).isOn = false →
      (createConditionalPollerRun s es).latest = none := by
  induction es generalizing s with
  | nil => exact hs
  | cons e es ih =>
    refine ih _ ?_
    cases e with
    | condOff => intro _; rfl
    | condOn r => intro h; simp [createConditionalPollerStep] at h
    | tick r =>
      by_cases hOn : s.isOn = true
      · simp [createConditionalPollerStep, hOn]
      · simpa [createConditionalPollerStep, hOn] using hs

/-- C5: for every conditional poller (all five are instances of
`createConditionalPoller$` over some payload type): while the gating signal
is false the cached value is none; the transition to false itself resets
the cache to none; the transition to true polls immediately, caching that
result of that tick; a failed fetch resolves to none for its tick; and a failing
tick while on neither stops the poller nor corrupts it — the remaining
events are processed exactly as from the running state with a none cache.
The shared fixed period is `POLL_INTERVAL = 2000` ms. -/
theorem claim5_conditional_poller (T : Type) :
    (∀ es : List (PollerEvent T),
      (createConditionalPollerRun pollerInit es).isOn = false →
        (createConditionalPollerRun pollerInit es).latest = none) ∧
    (∀ s : PollerState T,
      createConditionalPollerStep s PollerEvent.condOff =
        { isOn := false, latest := none }) ∧
    (∀ (s : PollerState T) (r : Option T),
      createConditionalPollerStep s (PollerEvent.condOn r) =
        { isOn := true, latest := r }) ∧
    (∀ msg : String, createPollingTask (T := T) (FetchOutcome.failed msg) = none) ∧
    (∀ (s : PollerState T) (msg : String) (es : List (PollerEvent T)),
      s.isOn = true →
        createConditionalPollerRun s
            (PollerEvent.tick (createPollingTask (FetchOutcome.failed msg)) :: es) =
          createConditionalPollerRun { isOn := true, latest := none } es) ∧
    POLL_INTERVAL = 2000 := by
  refine ⟨fun es => createConditionalPollerRun_off_latest pollerInit (fun _ => rfl) es,
    fun s => rfl, fun s r => rfl, fun msg => rfl, fun s msg es hOn => ?_, rfl⟩
  show createConditionalPollerRun (createConditionalPollerStep s _) es = _
  simp [createConditionalPollerStep, createPollingTask, hOn]

/-- Witness for C5: a running poller with a cached value takes a failed
tick and continues as a running poller with a none cache. -/
theorem claim5_conditional_poller_witness :
    createConditionalPollerRun (T := Nat) { isOn := true, latest := some 5 }
        (PollerEvent.tick (createPollingTask (FetchOutcome.failed "link down")) ::
          [PollerEvent.tick (some 7)]) =
      createConditionalPollerRun { isOn := true, latest := none }
        [PollerEvent.tick (some 7)] :=
  (claim5_conditional_poller Nat).2.2.2.2.1 { isOn := true, latest := some 5 }
    "link down" [PollerEvent.tick (some 7)] rfl

/-! ## C6: the unconditional power poller -/

/-- Fold of a `getPowerStatus` outcome to `boolean | null` as in the
`GET /api/power-state` handler (part_001, lines 171-176):
`E.map(O.toNullable)` then `E.getOrElse(() => null)`. -/
def powerStatusToReading (deviceOutcome : Except String (Option Bool)) : Option Bool :=
  match deviceOutcome with
  | .ok v => v
  | .error _ => none

/-- The `GET /api/power-state` handler (part_001, lines 169-178): one fresh
`getPowerStatus` read is folded to a reading, fed into
`updateFromProjectorStatus`, and the enriched snapshot is returned. -/
def powerStateRoute (now : Int) (st : PowerStateData)
    (deviceOutcome : Except String (Option Bool)) : PowerStateData × PowerStateInfo :=
  (updateFromProjector now st (powerStatusToReading deviceOutcome),
    enrichWithRemainingSeconds now (updateFromProjector now st (powerStatusToReading deviceOutcome)))

/-- Outcome of one `power$` tick (poller.ts, lines 20-31): the HTTP call to
`GET /api/power-state` either fails (the `TE.tryCatch` in `fetchPowerState`
reifies the rejection as `Left`, which line 29 maps to `null`) or is served
by the route handler given the device outcome of that fresh read. -/
inductive PowerTickOutcome where
  | httpFailure (msg : String)
  | served (deviceOutcome : Except String (Option Bool))

/-- One `power$` tick: the resulting server-side snapshot and the value
published to subscribers (`none` on a failed tick). -/
def powerTick (now : Int) (st : PowerStateData) :
    PowerTickOutcome → PowerStateData × Option PowerStateInfo
  | .httpFailure _ => (st, none)
  | .served d => ((powerStateRoute now st d).1, some (powerStateRoute now st d).2)

/-- The power poller consuming a whole tick sequence, collecting every
published value. -/
def powerPollerRun (st : PowerStateData) :
    List (Int × PowerTickOutcome) → PowerStateData × List (Option PowerStateInfo)
  | [] => (st, [])
  | (now, o) :: rest =>
    ((powerPollerRun (powerTick now st o).1 rest).1,
      (powerTick now st o).2 :: (powerPollerRun (powerTick now st o).1 rest).2)

/-- Emission schedule of `interval(POLL_INTERVAL).pipe(startWith(0))`: the
n-th tick fires `POLL_INTERVAL * n` ms after subscription. -/
def powerTickTime (n : Nat) : Nat := POLL_INTERVAL * n

/-- C6: the power poller ticks immediately and then every 2000 ms; a served
tick feeds the fresh `getPowerStatus` outcome into `observeReading`
(`updateFromProjector`) and publishes the enriched snapshot; a failed tick
publishes `none` and leaves the snapshot untouched; and every tick of any
tick sequence publishes — a failure never halts the poller. -/
theorem claim6_power_poller :
    (powerTickTime 0 = 0 ∧ ∀ n : Nat, powerTickTime (n + 1) = powerTickTime n + 2000) ∧
    (∀ (now : Int) (st : PowerStateData) (d : Except String (Option Bool)),
      powerTick now st (PowerTickOutcome.served d) =
        (updateFromProjector now st (powerStatusToReading d),
          some (enrichWithRemainingSeconds now
            (updateFromProjector now st (powerStatusToReading d))))) ∧
    (∀ (now : Int) (st : PowerStateData) (msg : String),
      powerTick now st (PowerTickOutcome.httpFailure msg) = (st, none)) ∧
    (∀ (st : PowerStateData) (ticks : List (Int × PowerTickOutcome)),
      (powerPollerRun st ticks).2.length = ticks.length) := by
  refine ⟨⟨rfl, fun n => ?_⟩, fun now st d => rfl, fun now st msg => rfl, fun st ticks => ?_⟩
  · unfold powerTickTime POLL_INTERVAL
    ring
  · induction ticks generalizing st with
    | nil => rfl
    | cons t rest ih =>
      cases t with
      | mk now o => simpa [powerPollerRun] using ih (powerTick now st o).1

/-! ## C10: the picture-settings triple is all-or-nothing -/

/-- A picture-settings cache entry (poller.ts, lines 86-90). -/
structure PictureSettings where
  brightness : Option ℚ
  contrast : Option ℚ
  sharpness : Option ℚ
deriving DecidableEq, Repr

/-- `fetchPictureSettings` (poller.ts, lines 92-104): `Promise.all` over the
three reads rejects as soon as any one rejects, `TE.tryCatch` reifies that
as `Left`, and `TE.orElse` recovers it to the all-null triple; only when
all three resolve are their values kept. -/
def fetchPictureSettings (rb rc rs : Except String ℚ) : PictureSettings :=
  match rb, rc, rs with
  | .ok b, .ok c, .ok s =>
    { brightness := some b, contrast := some c, sharpness := some s }
  | _, _, _ => { brightness := none, contrast := none, sharpness := none }

/-- C10: if any one of the brightness/contrast/sharpness reads fails, the
whole cached triple for that tick is all-none — the successful reads are
discarded; only when all three succeed are their values cached. -/
theorem claim10_picture_settings_all_or_nothing (rb rc rs : Except String ℚ) :
    (((∃ e, rb = Except.error e) ∨ (∃ e, rc = Except.error e) ∨
        (∃ e, rs = Except.error e)) →
      fetchPictureSettings rb rc rs =
        { brightness := none, contrast := none, sharpness := none }) ∧
    (∀ b c s : ℚ, rb = Except.ok b → rc = Except.ok c → rs = Except.ok s →
      fetchPictureSettings rb rc rs =
        { brightness := some b, contrast := some c, sharpness := some s }) := by
  constructor
  · intro h
    match rb, rc, rs with
    | .ok b, .ok c, .ok s =>
      rcases h with ⟨e, he⟩ | ⟨e, he⟩ | ⟨e, he⟩ <;> cases he
    | .error e, _, _ => rfl
    | .ok _, .error e, _ => rfl
    | .ok _, .ok _, .error e => rfl
  · intro b c s hb hc hs
    subst hb; subst hc; subst hs
    rfl

/-- Witness for C10: contrast fails while brightness and sharpness succeed;
the succeeded values 42 and 7 are discarded. -/
theorem claim10_picture_settings_all_or_nothing_witness :
    fetchPictureSettings (Except.ok 42) (Except.error "timeout") (Except.ok 7) =
      { brightness := none, contrast := none, sharpness := none } :=
  (claim10_picture_settings_all_or_nothing (Except.ok 42) (Except.error "timeout")
      (Except.ok 7)).1 (Or.inr (Or.inl ⟨"timeout", rfl⟩))

/-! ## C7: FIFO serialization on the Device Link -/

/-- Modelled from the spec: the Device Link / `TK700Client` implementation
(`src/lib/tk700-client.ts`) is not part of the available source — only the
call sites and the import of it are. Spec section 4.1 requires that, the channel being
a single serial line, only one exchange be outstanding at a time and that
concurrent callers be queued in request order (FIFO). The link is modelled
as a queue of issued frames of which at most one is on the wire, completed
frames accumulating in completion order. -/
structure LinkState (F : Type) where
  pending : List F
  outstanding : Option F
  completed : List F
deriving Repr

/-- Events on the modelled link: a caller issues an exchange (queued FIFO),
the link puts the next queued frame on the wire when none is outstanding,
and the device reply completes the outstanding exchange. -/
inductive LinkEvent (F : Type) where
  | issue (f : F)
  | start
  | finish
deriving Repr

def linkStep {F : Type} (s : LinkState F) : LinkEvent F → LinkState F
  | .issue f => { s with pending := s.pending ++ [f] }
  | .start =>
    match s.outstanding, s.pending with
    | none, f :: rest =>
      { pending := rest, outstanding := some f, completed := s.completed }
    | _, _ => s
  | .finish =>
    match s.outstanding with
    | some f => { s with outstanding := none, completed := s.completed ++ [f] }
    | none => s

def linkInit {F : Type} : LinkState F := { pending := [], outstanding := none, completed := [] }

def linkRun {F : Type} (s : LinkState F) : List (LinkEvent F) → LinkState F
  | [] => s
  | e :: es => linkRun (linkStep s e) es

/-- The frames issued by a trace, in issuance order. -/
def issuedFrames {F : Type} : List (LinkEvent F) → List F
  | [] => []
  | .issue f :: es => f :: issuedFrames es
  | .start :: es => issuedFrames es
  | .finish :: es => issuedFrames es

lemma linkStep_trace {F : Type} (s : LinkState F) (e : LinkEvent F) :
    (linkStep s e).completed ++ (linkStep s e).outstanding.toList ++
        (linkStep s e).pending =
      s.completed ++ s.outstanding.toList ++ s.pending ++ issuedFrames [e] := by
  obtain ⟨p, o, c⟩ := s
  cases e with
  | issue f => simp [linkStep, issuedFrames]
  | start => cases o <;> cases p <;> simp [linkStep, issuedFrames]
  | finish => cases o <;> simp [linkStep, issuedFrames]

lemma linkRun_trace {F : Type} (s : LinkState F) (es : List (LinkEvent F)) :
    (linkRun s es).completed ++ (linkRun s es).outstanding.toList ++
        (linkRun s es).pending =
      s.completed ++ s.outstanding.toList ++ s.pending ++ issuedFrames es := by
  induction es generalizing s with
  | nil => simp [linkRun, issuedFrames]
  | cons e es ih =>
    have hstep := linkStep_trace s e
    calc (linkRun s (e :: es)).completed ++ (linkRun s (e :: es)).outstanding.toList ++
          (linkRun s (e :: es)).pending
        = (linkStep s e).completed ++ (linkStep s e).outstanding.toList ++
            (linkStep s e).pending ++ issuedFrames es := ih (linkStep s e)
      _ = s.completed ++ s.outstanding.toList ++ s.pending ++ issuedFrames [e] ++
            issuedFrames es := by rw [hstep]
      _ = s.completed ++ s.outstanding.toList ++ s.pending ++ issuedFrames (e :: es) := by
            cases e <;> simp [issuedFrames]

/-- C7: on the modelled Device Link, for every event trace from the idle
link, at most one exchange is ever on the wire, the completed exchanges are
exactly the first issued ones in issuance order (FIFO — no interleaving or
misattribution), and every issued frame is accounted for as completed,
outstanding or still queued, in issuance order. -/
theorem claim7_device_link_fifo (F : Type) (es : List (LinkEvent F)) :
    (linkRun linkInit es).outstanding.toList.length ≤ 1 ∧
    (linkRun linkInit es).completed =
      (issuedFrames es).take (linkRun linkInit es).completed.length ∧
    (linkRun linkInit es).completed ++ (linkRun linkInit es).outstanding.toList ++
        (linkRun linkInit es).pending = issuedFrames es := by
  have htrace : (linkRun linkInit es).completed ++
      (linkRun linkInit es).outstanding.toList ++ (linkRun linkInit es).pending =
      issuedFrames es := by
    have := linkRun_trace (linkInit (F := F)) es
    simpa [linkInit] using this
  refine ⟨?_, ?_, htrace⟩
  · cases (linkRun linkInit es).outstanding <;> simp
  · conv_lhs => rw [show (linkRun linkInit es).completed =
      ((linkRun linkInit es).completed ++
        ((linkRun linkInit es).outstanding.toList ++
          (linkRun linkInit es).pending)).take
        (linkRun linkInit es).completed.length from (List.take_left _ _).symm]
    rw [← List.append_assoc, htrace]

/-! ## C8: the POST /api/brightness body check -/

/-- A JSON value as it can appear in a parsed request-body field. -/
inductive Json where
  | null
  | bool (b : Bool)
  | num (q : ℚ)
  | str (s : String)
deriving DecidableEq, Repr

/-- JavaScript truthiness of a parsed JSON value. -/
def jsTruthy : Json → Bool
  | .null => false
  | .bool b => b
  | .num q => decide (q ≠ 0)
  | .str s => decide (s ≠ "")

/-- A `POST /api/brightness` body: each field is absent (`none`, reading as
`undefined`) or holds a JSON value. -/
structure BrightnessBody where
  direction : Option Json
  value : Option Json
deriving DecidableEq, Repr

/-- What the handler dispatches. -/
inductive BrightnessAction where
  | adjustBrightness (direction : Json)
  | setBrightness (value : Json)
  | badRequest
deriving DecidableEq, Repr

/-- The `POST /api/brightness` handler (part_001, lines 208-218):
`if (body.direction)` is a JavaScript truthiness test (an absent field reads
as `undefined`, which is falsy), and `body.value !== undefined` is a
presence test for a JSON-parsed body. `badRequest` is the
`Invalid request` 400 response. -/
def brightnessRoute (body : BrightnessBody) : BrightnessAction :=
  if (match body.direction with | some d => jsTruthy d | none => false) = true then
    BrightnessAction.adjustBrightness (body.direction.getD Json.null)
  else if body.value.isSome = true then
    BrightnessAction.setBrightness (body.value.getD Json.null)
  else BrightnessAction.badRequest

/-- Counterexample to C8 as stated: the body `{direction: ""}` contains a
direction field yet is answered with 400 rather than a dispatch of
`adjustBrightness`, because the handler tests the field for truthiness, not
presence. -/
theorem claim8_counterexample :
    brightnessRoute { direction := some (Json.str ""), value := none } =
        BrightnessAction.badRequest ∧
      ({ direction := some (Json.str ""), value := none } : BrightnessBody).direction.isSome
        = true := by
  constructor <;> rfl

/-- C8 (amended): 400 is returned iff the direction field is absent or
falsy and the value field is absent; a present truthy direction dispatches
`adjustBrightness`; a present value with no truthy direction dispatches
`setBrightness`. -/
theorem claim8_brightness_route (body : BrightnessBody) :
    (brightnessRoute body = BrightnessAction.badRequest ↔
      ((∀ d, body.direction = some d → jsTruthy d = false) ∧ body.value = none)) ∧
    (∀ d, body.direction = some d → jsTruthy d = true →
      brightnessRoute body = BrightnessAction.adjustBrightness d) ∧
    (∀ v, body.value = some v → (∀ d, body.direction = some d → jsTruthy d = false) →
      brightnessRoute body = BrightnessAction.setBrightness v) := by
  obtain ⟨dir, val⟩ := body
  refine ⟨?_, fun d hd htr => ?_, fun v hv hdir => ?_⟩
  · cases dir with
    | none => cases val <;> simp [brightnessRoute]
    | some d =>
      by_cases htr : jsTruthy d = true
      · simp [brightnessRoute, htr]
      · rw [Bool.not_eq_true] at htr
        cases val <;> simp [brightnessRoute, htr]
  · have hd' : dir = some d := hd
    subst hd'
    simp [brightnessRoute, htr]
  · have hv' : val = some v := hv
    subst hv'
    cases hdc : dir with
    | none => simp [brightnessRoute]
    | some d =>
      have htr : jsTruthy d = false := hdir d (by rw [hdc])
      simp [brightnessRoute, htr]

/-- Witness for C8 (amended) at a concrete body `{value: 3}`: it dispatches
`setBrightness 3`. -/
theorem claim8_brightness_route_witness :
    brightnessRoute { direction := none, value := some (Json.num 3) } =
      BrightnessAction.setBrightness (Json.num 3) :=
  (claim8_brightness_route { direction := none, value := some (Json.num 3) }).2.2
    (Json.num 3) rfl (fun _ hd => Option.noConfusion hd)

/-! ## C9: POST /api/power applies the transition regardless of setPower -/

/-- The ordered steps the `POST /api/power` handler performs (part_001,
lines 182-186): first apply `initiateTransitionTo(on)` to the state
machine, then issue `setPower(on)` to the device. -/
inductive PowerRouteStep where
  | applyTransition (targetOn : Bool)
  | issueSetPower (targetOn : Bool)
deriving DecidableEq, Repr

def postPowerSteps (onFlag : Bool) : List PowerRouteStep :=
  [PowerRouteStep.applyTransition onFlag, PowerRouteStep.issueSetPower onFlag]

/-- The effect of the `POST /api/power` handler: the new snapshot (from
`initiateTransitionTo`, which does not consult the device outcome) and the
response (the `setPower` outcome). -/
def postPowerRoute (now : Int) (st : PowerStateData) (onFlag : Bool)
    (setPowerOutcome : Except String Unit) : PowerStateData × Except String Unit :=
  (initiateTransition now st onFlag, setPowerOutcome)

/-- C9: the handler applies the state-machine transition before issuing
`setPower` and independently of its outcome: the resulting snapshot is the
same whatever `setPower` returns, it is exactly `initiateTransition`, and
from `OFF` (resp. `ON`) the snapshot moves to `WARMING_UP` (resp.
`COOLING_DOWN`) even when `setPower` fails. -/
theorem claim9_power_route_transition_first (now : Int) (st : PowerStateData)
    (onFlag : Bool) :
    (postPowerSteps onFlag =
      [PowerRouteStep.applyTransition onFlag, PowerRouteStep.issueSetPower onFlag]) ∧
    (∀ o1 o2 : Except String Unit,
      (postPowerRoute now st onFlag o1).1 = (postPowerRoute now st onFlag o2).1) ∧
    (∀ o : Except String Unit,
      (postPowerRoute now st onFlag o).1 = initiateTransition now st onFlag) ∧
    (∀ msg : String, st.state = PowerState.OFF → onFlag = true →
      (postPowerRoute now st onFlag (Except.error msg)).1.state =
        PowerState.WARMING_UP) ∧
    (∀ msg : String, st.state = PowerState.ON → onFlag = false →
      (postPowerRoute now st onFlag (Except.error msg)).1.state =
        PowerState.COOLING_DOWN) := by
  refine ⟨rfl, fun o1 o2 => rfl, fun o => rfl, fun msg hOff hOn => ?_, fun msg hOn hOff => ?_⟩
  · subst hOn
    show (initiateTransition now st true).state = PowerState.WARMING_UP
    unfold initiateTransition
    rw [if_pos ⟨rfl, hOff⟩]
  · subst hOff
    show (initiateTransition now st false).state = PowerState.COOLING_DOWN
    unfold initiateTransition
    rw [if_neg (by simp), if_pos ⟨rfl, hOn⟩]

/-- Witness for C9: from an `OFF` snapshot, a power-on request whose
`setPower` fails still lands in `WARMING_UP`. -/
theorem claim9_power_route_transition_first_witness :
    (postPowerRoute 5555 ⟨some false, PowerState.OFF, none⟩ true
        (Except.error "link down")).1.state = PowerState.WARMING_UP :=
  (claim9_power_route_transition_first 5555 ⟨some false, PowerState.OFF, none⟩
      true).2.2.2.1 "link down" rfl rfl

end TK700
